import Mathlib

/-!
Verification of the payment-confirmation engine of the MachinePay kiosk
backend (Express server) and its client payment page.

The definitions below are a shallow embedding of the source:
* the process-wide `confirmedPayments` Map (the confirmation cache),
* the webhook/IPN ingestors that write into it,
* the `GET /api/payment/status/:paymentId` resolver with its strategy
  ladder (cache hit, direct payment id, finished state, amount search,
  canceled state) and its aggressive cleanup sweeps,
* the `DELETE /api/payment/cancel/:paymentId` endpoint,
* the passive 2-minute auto-cleanup sweep,
* the `POST /api/payment/create` endpoint, and
* the client-side card-payment poll loop of `PaymentPage.tsx`.

Monetary amounts are integer minor currency units (centavos); the
`Math.round(x * 100)` conversions of the source are represented by
already-integral `amountCents` fields.  Network calls are represented by
environment records: an `Option` result where `none` stands for a thrown
fetch, and explicit outcome streams for DELETE calls whose results the
code inspects.
-/

namespace MachinePay

/-- A record stored in the `confirmedPayments` Map by the webhook / IPN
ingestors: `{paymentId, amount, status, timestamp}`. -/
structure CachedPayment where
  paymentId : String
  amountCents : Nat
  status : String
  timestamp : Nat
  deriving Repr, DecidableEq

/-- The `confirmedPayments` Map.  Keys in the source are the strings
`amount_${amountCents}`, which are in bijection with the `amountCents`
values, so the cache is keyed directly by `amountCents`. -/
def Cache : Type := Nat → Option CachedPayment

/-- A cache with no entries (fresh process). -/
def emptyCache : Cache := fun _ => none

/-- `confirmedPayments.set(key, record)`: unconditional upsert. -/
def cacheSet (c : Cache) (k : Nat) (v : CachedPayment) : Cache :=
  fun k2 => if k2 = k then some v else c k2

/-- `confirmedPayments.delete(key)`. -/
def cacheDelete (c : Cache) (k : Nat) : Cache :=
  fun k2 => if k2 = k then none else c k2

/-- The read-and-remove idiom of the status resolver (lines 695-701 of
the server: `confirmedPayments.get(cacheKey)` followed, on a hit, by
`confirmedPayments.delete(cacheKey)`). -/
def takeIfPresent (c : Cache) (k : Nat) : Option CachedPayment × Cache :=
  match c k with
  | some v => (some v, cacheDelete c k)
  | none => (none, c)

/-- The webhook / IPN ingestor cache write: on an
`approved`/`authorized` payment it stores a record under
`amount_${amountCents}` (server lines 481-493 and 545-557). -/
def ingestNotification (c : Cache) (status : String) (amountCents : Nat)
    (paymentId : String) (now : Nat) : Cache :=
  if status == "approved" || status == "authorized" then
    cacheSet c amountCents ⟨paymentId, amountCents, status, now⟩
  else c

/-- The hourly cache eviction sweep: drops every record whose
`timestamp` is older than one hour (server lines 58-65). -/
def evictOlderThan (c : Cache) (now : Nat) : Cache :=
  fun k =>
    match c k with
    | some v => if v.timestamp < now - 3600000 then none else some v
    | none => none

/-! ## The status resolver (`GET /api/payment/status/:paymentId`) -/

/-- Character-list prefix test, the meaning of JavaScript
`String.prototype.startsWith`. -/
def strStarts (p s : List Char) : Bool :=
  match p, s with
  | [], _ => true
  | _ :: _, [] => false
  | a :: p2, b :: s2 => a == b && strStarts p2 s2

/-- The mock-id test of the status route (server line 678):
`paymentId.startsWith("mock_pay")`. -/
def isMockId (id : String) : Bool := strStarts "mock_pay".data id.data

/-- The payment-intent detail returned by the gateway
(`GET /point/integration-api/payment-intents/:id`): its `state`, its
`amount` in centavos (`0` when the field is absent, which falsifies the
source's `intentAmount > 0` test exactly like `undefined` does), and the
directly embedded payment id `dataIntent.payment?.id` when present. -/
structure IntentDetail where
  state : String
  amount : Nat
  payment : Option String
  deriving Repr, DecidableEq

/-- A payment returned by the gateway payment search
(`GET /v1/payments/search?...range=date_created:NOW-30MINUTES:NOW...`).
`amountCents` stands for `Math.round(p.transaction_amount * 100)`. -/
structure GatewayPayment where
  id : String
  status : String
  amountCents : Nat
  deriving Repr, DecidableEq

/-- The predicate of the amount-search fallback (server lines 871-876):
an approved or authorized payment whose amount in centavos equals the
intent's amount. -/
def paymentMatches (intentAmount : Nat) (p : GatewayPayment) : Bool :=
  (p.status == "approved" || p.status == "authorized") && (p.amountCents == intentAmount)

/-- The outcome of one DELETE call on a payment intent: HTTP ok,
HTTP 404, another HTTP status, or a thrown network error. -/
inductive DelOutcome
  | okResp
  | notFound
  | errStatus
  | netThrow
  deriving Repr, DecidableEq

/-- `delResp.ok || delResp.status === 404`: the condition on which the
retried delete loops break. -/
def delOk : DelOutcome → Bool
  | .okResp => true
  | .notFound => true
  | .errStatus => false
  | .netThrow => false

/-- One entry of the device queue listing (`data.events`); the delete
target is `ev.payment_intent_id || ev.id`. -/
structure QEvent where
  paymentIntentId : Option String
  id : String
  state : String
  deriving Repr, DecidableEq

/-- `ev.payment_intent_id || ev.id`. -/
def qeventId (e : QEvent) : String := e.paymentIntentId.getD e.id

/-- Number of DELETE attempts performed by a
`for (let attempt = 1; attempt <= max; attempt++)` retry loop that
breaks on `ok || 404` and otherwise sleeps and retries (server lines
725-743, 786-805, 884-902).  `out n` is the outcome of attempt `n`;
`fuel` is the number of attempts remaining. -/
def retryAttempts (out : Nat → DelOutcome) : Nat → Nat → Nat
  | _, 0 => 0
  | attempt, fuel + 1 =>
    if delOk (out attempt) then 1
    else if fuel = 0 then 1
    else 1 + retryAttempts out (attempt + 1) fuel

/-- Queue clearing where each per-event DELETE sits in its own
`try/catch` (the FINISHED/PROCESSED and amount-search branches, server
lines 820-831 and 917-927): a delete is issued for every listed event,
individual failures are tolerated.  `none` models a listing fetch that
threw or responded not-ok, in which case no delete is issued. -/
def clearQueueTolerant : Option (List QEvent) → List String
  | some evs => evs.map qeventId
  | none => []

/-- Queue clearing of the direct-payment-id branch (server lines
746-770), where the per-event DELETE is *not* individually guarded: a
thrown delete aborts the remaining deletes (the surrounding `try/catch`
swallows the error). -/
def clearQueueFragileGo (throws : String → Bool) : List QEvent → List String
  | [] => []
  | e :: rest =>
    if throws (qeventId e) then [qeventId e]
    else qeventId e :: clearQueueFragileGo throws rest

/-- Queue clearing of the direct-payment-id branch, lifted to an
optional listing result. -/
def clearQueueFragile (throws : String → Bool) : Option (List QEvent) → List String
  | some evs => clearQueueFragileGo throws evs
  | none => []

/-- The gateway environment observed by one status poll.  `none` on a
fetch models a thrown network call. -/
structure StatusEnv where
  intent : Option IntentDetail
  search : Option (List GatewayPayment)
  intentDel : Nat → DelOutcome
  queueList : Option (List QEvent)
  queueDelThrows : String → Bool

/-- The JSON body answered by the status route: `{status: "approved",
paymentId?}`, `{status: "canceled"}`, `{status: "pending"}`, or the 500
`{error: "Sem token MP"}` answered when no access token is set. -/
inductive StatusResult
  | approved (paymentId : Option String)
  | canceled
  | pending
  | errNoToken
  deriving Repr, DecidableEq

/-- Everything one status poll does: the response, the updated
confirmation cache, the number of DELETE attempts issued against the
polled intent, and the ids of the other queued intents a sweep deleted. -/
structure StatusOutput where
  response : StatusResult
  cache : Cache
  intentDeleteAttempts : Nat
  queueDeleteIds : List String

/-- The `GET /api/payment/status/:paymentId` handler (server lines
675-966), strategy by strategy in source order: mock ids are approved
outright; a missing access token is a 500; a thrown intent fetch
degrades to `pending` via the outer catch; then cache hit, direct
payment id, FINISHED/PROCESSED state, amount search (whose thrown fetch
also reaches the outer catch), CANCELED/ERROR state, and finally
`pending`. -/
def paymentStatusRoute (hasToken : Bool) (paymentId : String) (env : StatusEnv)
    (cache : Cache) : StatusOutput :=
  if isMockId paymentId then ⟨.approved none, cache, 0, []⟩
  else if !hasToken then ⟨.errNoToken, cache, 0, []⟩
  else
    match env.intent with
    | none => ⟨.pending, cache, 0, []⟩
    | some d =>
      match (if 0 < d.amount then cache d.amount else none) with
      | some r => ⟨.approved (some r.paymentId), cacheDelete cache d.amount, 1, []⟩
      | none =>
        match d.payment with
        | some pid =>
          ⟨.approved (some pid), cache, retryAttempts env.intentDel 1 3,
            clearQueueFragile env.queueDelThrows env.queueList⟩
        | none =>
          if d.state == "FINISHED" || d.state == "PROCESSED" then
            ⟨.approved none, cache, retryAttempts env.intentDel 1 5,
              clearQueueTolerant env.queueList⟩
          else if 0 < d.amount then
            match env.search with
            | none => ⟨.pending, cache, 0, []⟩
            | some payments =>
              match payments.find? (paymentMatches d.amount) with
              | some p =>
                ⟨.approved (some p.id), cache, retryAttempts env.intentDel 1 3,
                  clearQueueTolerant env.queueList⟩
              | none =>
                if d.state == "CANCELED" || d.state == "ERROR" then
                  ⟨.canceled, cache, 1, []⟩
                else ⟨.pending, cache, 0, []⟩
          else
            if d.state == "CANCELED" || d.state == "ERROR" then
              ⟨.canceled, cache, 1, []⟩
            else ⟨.pending, cache, 0, []⟩

/-- C2: after `cacheSet`, `takeIfPresent` of the same amount returns the
record and removes it: a second `takeIfPresent` (with no intervening
put) returns `none`. -/
theorem c2_take_after_put_exactly_once (c : Cache) (k : Nat) (v : CachedPayment) :
    (takeIfPresent (cacheSet c k v) k).1 = some v ∧
    (takeIfPresent (takeIfPresent (cacheSet c k v) k).2 k).1 = none := by
  constructor
  · simp [takeIfPresent, cacheSet]
  · simp [takeIfPresent, cacheSet, cacheDelete]

/-- C1: when both a confirmation-cache entry for the intent's positive
amount and a payment id embedded directly in the intent detail are
available on the same poll, the cache entry is consumed first: the
resolver answers `approved` with the cached `paymentId` (not the
embedded one) and removes the entry from the cache. -/
theorem c1_cache_hit_precedes_direct_id (id : String) (env : StatusEnv) (c : Cache)
    (d : IntentDetail) (r : CachedPayment) (pid : String)
    (hm : isMockId id = false) (hi : env.intent = some d) (ha : 0 < d.amount)
    (hc : c d.amount = some r) (_hp : d.payment = some pid) :
    (paymentStatusRoute true id env c).response = .approved (some r.paymentId) ∧
    (paymentStatusRoute true id env c).cache d.amount = none := by
  constructor <;> simp [paymentStatusRoute, hm, hi, ha, hc, cacheDelete]

/-- Concrete intent detail for the C1 witness: positive amount and a
directly embedded payment id. -/
def intentC1 : IntentDetail := ⟨"ON_DEVICE", 1550, some "pdirect"⟩

/-- Concrete environment for the C1 witness. -/
def envC1 : StatusEnv := ⟨some intentC1, some [], fun _ => .okResp, some [], fun _ => false⟩

/-- Concrete cached confirmation for the C1 witness. -/
def recC1 : CachedPayment := ⟨"p1", 1550, "approved", 0⟩

/-- C1 witness: with both the cache entry for 1550 centavos and the
embedded id `pdirect` present, the poll answers the cached `p1`. -/
theorem c1_cache_hit_precedes_direct_id_witness :
    (paymentStatusRoute true "pi_7" envC1 (cacheSet emptyCache 1550 recC1)).response
      = .approved (some "p1") ∧
    (paymentStatusRoute true "pi_7" envC1 (cacheSet emptyCache 1550 recC1)).cache 1550 = none :=
  c1_cache_hit_precedes_direct_id "pi_7" envC1 (cacheSet emptyCache 1550 recC1)
    intentC1 recC1 "pdirect" (by decide) rfl (by decide) rfl rfl

/-- Concrete environment for the C3 counterexample: the intent fetch
succeeds, but every DELETE call on the intent throws, the device
listing throws, and the payment search would throw. -/
def envC3 : StatusEnv :=
  ⟨some ⟨"ON_DEVICE", 1550, none⟩, none, fun _ => .netThrow, none, fun _ => true⟩

/-- C3 counterexample: a poll in which a gateway call inside the
resolver throws yet the response is not `pending`.  With a cache hit
for the intent's amount, the resolver issues one cleanup DELETE
(`intentDeleteAttempts = 1`) whose outcome is a thrown network error
(`envC3.intentDel 1 = .netThrow`), and still answers `approved`. -/
theorem c3_throwing_delete_still_approved :
    envC3.intentDel 1 = .netThrow ∧
    (paymentStatusRoute true "pi_7" envC3 (cacheSet emptyCache 1550 recC1)).intentDeleteAttempts
      = 1 ∧
    (paymentStatusRoute true "pi_7" envC3 (cacheSet emptyCache 1550 recC1)).response
      = .approved (some "p1") ∧
    StatusResult.approved (some "p1") ≠ .pending := by
  refine ⟨rfl, by decide, by decide, by decide⟩

/-- Helper: the response of a status poll depends only on the intent
fetch and the search fetch, never on the outcomes of cleanup DELETE
calls or of the device-queue listing. -/
theorem statusRoute_response_ext (tok : Bool) (id : String) (c : Cache)
    (e1 e2 : StatusEnv) (h1 : e1.intent = e2.intent) (h2 : e1.search = e2.search) :
    (paymentStatusRoute tok id e1 c).response = (paymentStatusRoute tok id e2 c).response := by
  unfold paymentStatusRoute
  rw [h1, h2]
  repeat' first
  | rfl
  | split

/-- C3 (amended): no resolver-internal failure fails a poll.  Given a
configured token and a non-mock id: a thrown intent fetch degrades to
`pending`; a thrown payment search — reached on a cache miss with no
embedded payment id, a non-finished state and a positive amount — also
degrades to `pending`; the outcomes of cleanup DELETE calls and of the
device-queue listing never change the response; and the response is
always one of `approved`, `canceled`, `pending`, never an error. -/
theorem c3_amended_failures_degrade (id : String) (env : StatusEnv) (c : Cache)
    (hm : isMockId id = false) :
    (env.intent = none → (paymentStatusRoute true id env c).response = .pending) ∧
    (∀ d, env.intent = some d → c d.amount = none → d.payment = none →
      (d.state == "FINISHED" || d.state == "PROCESSED") = false →
      0 < d.amount → env.search = none →
      (paymentStatusRoute true id env c).response = .pending) ∧
    (∀ out ql qt,
      (paymentStatusRoute true id ⟨env.intent, env.search, out, ql, qt⟩ c).response
        = (paymentStatusRoute true id env c).response) ∧
    (paymentStatusRoute true id env c).response ≠ .errNoToken := by
  refine ⟨?_, ?_, ?_, ?_⟩
  · intro h
    simp [paymentStatusRoute, hm, h]
  · intro d hi hca hp hs ha hsearch
    simp [paymentStatusRoute, hm, hi, hca, hp, hs, ha, hsearch]
  · intro out ql qt
    exact statusRoute_response_ext true id c _ env rfl rfl
  · unfold paymentStatusRoute
    simp only [hm, Bool.false_eq_true, if_false, Bool.not_true]
    rcases env.intent with _ | d
    · simp
    · simp only
      rcases (if 0 < d.amount then c d.amount else none) with _ | r
      · rcases d.payment with _ | pid
        · rcases (d.state == "FINISHED" || d.state == "PROCESSED") with _ | _ <;>
            simp only [Bool.false_eq_true, if_false, if_true]
          · by_cases hamt : 0 < d.amount
            · simp only [hamt, if_true]
              rcases env.search with _ | payments
              · simp
              · simp only
                rcases payments.find? (paymentMatches d.amount) with _ | p
                · by_cases hcanc : (d.state == "CANCELED" || d.state == "ERROR") = true <;>
                    simp [hcanc]
                · simp
            · simp only [hamt, if_false]
              by_cases hcanc : (d.state == "CANCELED" || d.state == "ERROR") = true <;>
                simp [hcanc]
          · simp
        · simp
      · simp

/-- C3 (amended) witness: with a thrown intent fetch, the concrete poll
answers `pending`. -/
theorem c3_amended_failures_degrade_witness :
    (paymentStatusRoute true "pi_7" ⟨none, none, fun _ => .netThrow, none, fun _ => true⟩
      emptyCache).response = .pending :=
  (c3_amended_failures_degrade "pi_7"
    ⟨none, none, fun _ => .netThrow, none, fun _ => true⟩ emptyCache (by decide)).1 rfl

/-- C4: when cache, direct-id and finished-state strategies all miss and
the intent amount is positive, a payment of the 30-minute search window
with status `approved` or `authorized` and exactly the intent's amount
in centavos makes the poll answer `approved` with that payment's id
(the first match of the search order when several qualify). -/
theorem c4_amount_search_fallback (id : String) (env : StatusEnv) (c : Cache)
    (d : IntentDetail) (payments : List GatewayPayment)
    (hm : isMockId id = false) (hi : env.intent = some d)
    (hca : c d.amount = none) (hp : d.payment = none)
    (hs : (d.state == "FINISHED" || d.state == "PROCESSED") = false)
    (ha : 0 < d.amount) (hsr : env.search = some payments)
    (hex : ∃ q ∈ payments, paymentMatches d.amount q = true) :
    ∃ q ∈ payments, paymentMatches d.amount q = true ∧
      (paymentStatusRoute true id env c).response = .approved (some q.id) := by
  have hsome : (payments.find? (paymentMatches d.amount)).isSome := by
    rw [List.find?_isSome]
    obtain ⟨q, hq, hqm⟩ := hex
    exact ⟨q, hq, hqm⟩
  rcases hfi : payments.find? (paymentMatches d.amount) with _ | q
  · rw [hfi] at hsome
    simp at hsome
  · refine ⟨q, List.mem_of_find?_eq_some hfi, List.find?_some hfi, ?_⟩
    simp [paymentStatusRoute, hm, hi, hca, hp, hs, ha, hsr, hfi]

/-- Concrete environment for the C4 witness: cache miss, no embedded
payment id, state `ON_DEVICE`, and a search window holding one
approved payment of exactly 1550 centavos. -/
def envC4 : StatusEnv :=
  ⟨some ⟨"ON_DEVICE", 1550, none⟩,
    some [⟨"p42", "approved", 1550⟩],
    fun _ => .okResp, some [], fun _ => false⟩

/-- C4 witness: the concrete poll answers `approved` with `p42`. -/
theorem c4_amount_search_fallback_witness :
    ∃ q ∈ [(⟨"p42", "approved", 1550⟩ : GatewayPayment)], paymentMatches 1550 q = true ∧
      (paymentStatusRoute true "pi_7" envC4 emptyCache).response = .approved (some q.id) :=
  c4_amount_search_fallback "pi_7" envC4 emptyCache ⟨"ON_DEVICE", 1550, none⟩
    [⟨"p42", "approved", 1550⟩] (by decide) rfl rfl rfl (by decide) (by decide) rfl
    ⟨⟨"p42", "approved", 1550⟩, by decide, by decide⟩

/-- Helper: a retried delete loop never performs more attempts than its
attempt budget. -/
theorem retryAttempts_le (out : Nat → DelOutcome) : ∀ a f, retryAttempts out a f ≤ f := by
  intro a f
  induction f generalizing a with
  | zero => simp [retryAttempts]
  | succ n ih =>
    unfold retryAttempts
    split
    · omega
    · split
      · omega
      · have := ih (a + 1)
        omega

/-- Helper: a retried delete loop stops after one attempt when the
first delete answers ok or 404. -/
theorem retryAttempts_first_ok (out : Nat → DelOutcome) (a f : Nat)
    (h : delOk (out a) = true) (hf : 0 < f) : retryAttempts out a f = 1 := by
  cases f with
  | zero => omega
  | succ n => simp [retryAttempts, h]

/-- Concrete environment for the C5 counterexample: intent in state
`FINISHED`, cache miss, no embedded payment id, every DELETE on the
intent answering a non-ok status, one other intent queued. -/
def envC5 : StatusEnv :=
  ⟨some ⟨"FINISHED", 1550, none⟩, some [], fun _ => .errStatus,
    some [⟨none, "other1", "FINISHED"⟩], fun _ => false⟩

/-- C5 counterexample: on observing a FINISHED state the resolver
retries the delete of the resolved intent up to **5** times, not at
most 3: with every delete failing, 5 attempts are issued. -/
theorem c5_finished_branch_five_attempts :
    (paymentStatusRoute true "pi_7" envC5 emptyCache).response = .approved none ∧
    (paymentStatusRoute true "pi_7" envC5 emptyCache).intentDeleteAttempts = 5 ∧
    ¬ ((paymentStatusRoute true "pi_7" envC5 emptyCache).intentDeleteAttempts ≤ 3) := by
  refine ⟨by decide, by decide, by decide⟩

/-- C5 (amended): the aggressive sweep deletes the just-resolved intent
with at most 3 attempts in the direct-payment-id and amount-search
branches but up to 5 attempts in the FINISHED/PROCESSED branch, always
stopping early once a delete answers ok or 404; the FINISHED/PROCESSED
and amount-search branches then issue a delete for every other queued
intent (tolerating individual failures), while the cache-hit branch
performs a single non-retried delete and does not clear the queue. -/
theorem c5_amended_sweep_bounds (id : String) (env : StatusEnv) (c : Cache)
    (d : IntentDetail) (hm : isMockId id = false) (hi : env.intent = some d) :
    (∀ out a, retryAttempts out a 3 ≤ 3) ∧
    (∀ out a, retryAttempts out a 5 ≤ 5) ∧
    (∀ out a f, delOk (out a) = true → 0 < f → retryAttempts out a f = 1) ∧
    (∀ r, 0 < d.amount → c d.amount = some r →
      (paymentStatusRoute true id env c).intentDeleteAttempts = 1 ∧
      (paymentStatusRoute true id env c).queueDeleteIds = []) ∧
    (∀ pid, (if 0 < d.amount then c d.amount else none) = none → d.payment = some pid →
      (paymentStatusRoute true id env c).intentDeleteAttempts ≤ 3) ∧
    ((if 0 < d.amount then c d.amount else none) = none → d.payment = none →
      (d.state == "FINISHED" || d.state == "PROCESSED") = true →
      (paymentStatusRoute true id env c).intentDeleteAttempts ≤ 5 ∧
      ∀ evs, env.queueList = some evs → ∀ e ∈ evs,
        qeventId e ∈ (paymentStatusRoute true id env c).queueDeleteIds) ∧
    (∀ payments p, (if 0 < d.amount then c d.amount else none) = none → d.payment = none →
      (d.state == "FINISHED" || d.state == "PROCESSED") = false → 0 < d.amount →
      env.search = some payments → payments.find? (paymentMatches d.amount) = some p →
      (paymentStatusRoute true id env c).intentDeleteAttempts ≤ 3 ∧
      ∀ evs, env.queueList = some evs → ∀ e ∈ evs,
        qeventId e ∈ (paymentStatusRoute true id env c).queueDeleteIds) := by
  refine ⟨fun out a => retryAttempts_le out a 3, fun out a => retryAttempts_le out a 5,
    fun out a f => retryAttempts_first_ok out a f, ?_, ?_, ?_, ?_⟩
  · intro r ha hc
    constructor <;> simp [paymentStatusRoute, hm, hi, ha, hc]
  · intro pid hca hp
    simp only [paymentStatusRoute, hm, Bool.false_eq_true, if_false, Bool.not_true, hi,
      hca, hp]
    exact retryAttempts_le env.intentDel 1 3
  · intro hca hp hs
    simp only [paymentStatusRoute, hm, Bool.false_eq_true, if_false, Bool.not_true, hi,
      hca, hp, hs, if_true]
    refine ⟨retryAttempts_le env.intentDel 1 5, ?_⟩
    intro evs hql e he
    simp [hql, clearQueueTolerant]
    exact ⟨e, he, rfl⟩
  · intro payments p hca hp hs ha hsr hfi
    rw [if_pos ha] at hca
    simp only [paymentStatusRoute, hm, Bool.false_eq_true, if_false, Bool.not_true, hi,
      hca, hp, hs, ha, if_true, hsr, hfi]
    refine ⟨retryAttempts_le env.intentDel 1 3, ?_⟩
    intro evs hql e he
    simp [hql, clearQueueTolerant]
    exact ⟨e, he, rfl⟩

/-- C5 (amended) witness: in the concrete FINISHED-state poll of
`envC5`, the intent-delete attempts stay within 5 and the other queued
intent `other1` receives a delete. -/
theorem c5_amended_sweep_bounds_witness :
    (paymentStatusRoute true "pi_7" envC5 emptyCache).intentDeleteAttempts ≤ 5 ∧
    qeventId ⟨none, "other1", "FINISHED"⟩
      ∈ (paymentStatusRoute true "pi_7" envC5 emptyCache).queueDeleteIds := by
  obtain ⟨-, -, -, -, -, h6, -⟩ :=
    c5_amended_sweep_bounds "pi_7" envC5 emptyCache ⟨"FINISHED", 1550, none⟩ (by decide) rfl
  have h := h6 (by decide) rfl (by decide)
  exact ⟨h.1, h.2 [⟨none, "other1", "FINISHED"⟩] rfl ⟨none, "other1", "FINISHED"⟩ (by decide)⟩

/-! ## The cancel endpoint (`DELETE /api/payment/cancel/:paymentId`) -/

/-- The `DELETE /api/payment/cancel/:paymentId` handler (server lines
969-997): without credentials it answers success (mock); with
credentials it forwards one DELETE to the gateway and answers
`{success: true}` on `response.ok || response.status === 404`, a 400
failure on any other status, and a 500 failure on a thrown call.
Result: `(success, httpStatus)`. -/
def cancelPaymentRoute (hasCreds : Bool) (resp : DelOutcome) : Bool × Nat :=
  if !hasCreds then (true, 200)
  else
    match resp with
    | .okResp => (true, 200)
    | .notFound => (true, 200)
    | .errStatus => (false, 400)
    | .netThrow => (false, 500)

/-- Modelled from the spec: the gateway collaborator contract
`deleteIntent(intentId) → ok | notFound` of §6 — the gateway itself is
external and not part of this repository.  Deleting an intent that
exists answers ok and removes it; deleting a missing intent answers
404.  Result: `(outcome, intent still exists afterwards)`. -/
def gatewayDeleteIntent (existsOnGateway : Bool) : DelOutcome × Bool :=
  if existsOnGateway then (.okResp, false) else (.notFound, false)

/-- C6: a gateway delete answering ok or 404 makes the cancel endpoint
answer `{success: true}`, so — under the gateway contract where a
second delete of the same intent answers 404 — deleting twice succeeds
both times; a 404 is never surfaced as an error. -/
theorem c6_delete_idempotent (resp : DelOutcome) (b : Bool)
    (h : resp = .okResp ∨ resp = .notFound) :
    (cancelPaymentRoute true resp).1 = true ∧
    (cancelPaymentRoute true (gatewayDeleteIntent b).1).1 = true ∧
    (cancelPaymentRoute true (gatewayDeleteIntent (gatewayDeleteIntent b).2).1).1 = true := by
  rcases h with h | h <;> subst h <;> cases b <;> exact ⟨rfl, rfl, rfl⟩

/-- C6 witness: a 404 answer yields success, and the double delete of
an intent that exists on the gateway succeeds both times. -/
theorem c6_delete_idempotent_witness :
    (cancelPaymentRoute true .notFound).1 = true ∧
    (cancelPaymentRoute true (gatewayDeleteIntent true).1).1 = true ∧
    (cancelPaymentRoute true
      (gatewayDeleteIntent (gatewayDeleteIntent true).2).1).1 = true :=
  c6_delete_idempotent .notFound true (Or.inr rfl)

/-! ## The passive 2-minute auto-cleanup sweep (server lines 69-113) -/

/-- The `shouldClean` condition of the auto-cleanup interval (server
lines 90-92): an intent is removed when its state is `FINISHED`,
`CANCELED` or `ERROR`. -/
def shouldClean (state : String) : Bool :=
  state == "FINISHED" || state == "CANCELED" || state == "ERROR"

/-- The delete targets of one pass of the 2-minute auto-cleanup sweep:
nothing without credentials or when the device listing fails;
otherwise a delete per listed event whose state satisfies
`shouldClean`.  Per-event failures are caught and only logged. -/
def passiveSweepDeletes (hasCreds : Bool) (listing : Option (List QEvent)) : List String :=
  if hasCreds then
    match listing with
    | some evs => (evs.filter fun e => shouldClean e.state).map qeventId
    | none => []
  else []

/-- C9 counterexample: an intent queued in terminal state `PROCESSED`
receives no delete from the passive sweep — `shouldClean` does not
cover `PROCESSED`. -/
theorem c9_processed_not_swept :
    shouldClean "PROCESSED" = false ∧
    passiveSweepDeletes true (some [⟨none, "i1", "PROCESSED"⟩]) = [] ∧
    ¬ ("i1" ∈ passiveSweepDeletes true (some [⟨none, "i1", "PROCESSED"⟩])) := by
  refine ⟨rfl, rfl, by decide⟩

/-- C9 (amended): on a passive-sweep pass with credentials configured
and a successful listing, every queued intent in state `FINISHED`,
`CANCELED` or `ERROR` receives a delete, only such intents receive
one, and `PROCESSED` — though terminal — is not swept. -/
theorem c9_amended_passive_sweep (evs : List QEvent) :
    (∀ e ∈ evs, shouldClean e.state = true →
      qeventId e ∈ passiveSweepDeletes true (some evs)) ∧
    (∀ i ∈ passiveSweepDeletes true (some evs),
      ∃ e ∈ evs, shouldClean e.state = true ∧ i = qeventId e) ∧
    shouldClean "FINISHED" = true ∧ shouldClean "CANCELED" = true ∧
    shouldClean "ERROR" = true ∧ shouldClean "PROCESSED" = false := by
  refine ⟨?_, ?_, rfl, rfl, rfl, rfl⟩
  · intro e he hc
    simp [passiveSweepDeletes]
    exact ⟨e, ⟨he, hc⟩, rfl⟩
  · intro i hi
    simp [passiveSweepDeletes] at hi
    obtain ⟨e, ⟨he, hc⟩, hid⟩ := hi
    exact ⟨e, he, hc, hid.symm⟩

/-- C9 (amended) witness: a concrete `FINISHED` intent is swept. -/
theorem c9_amended_passive_sweep_witness :
    qeventId ⟨none, "i5", "FINISHED"⟩
      ∈ passiveSweepDeletes true (some [⟨none, "i5", "FINISHED"⟩]) :=
  (c9_amended_passive_sweep [⟨none, "i5", "FINISHED"⟩]).1
    ⟨none, "i5", "FINISHED"⟩ (by decide) rfl

/-! ## The create endpoint (`POST /api/payment/create`) -/

/-- The body answered by the create endpoint: `{id, status}` on 200, or
the 500 `{error: ...}` when the gateway intent creation fails. -/
inductive CreateResp
  | jsonOk (id : String) (status : String)
  | err500
  deriving Repr, DecidableEq

/-- The mock id minted when credentials are missing (server line 571):
`mock_pay_${Date.now()}`. -/
def mockPayId (now : Nat) : String := "mock_pay_" ++ Nat.repr now

/-- The `POST /api/payment/create` handler (server lines 566-673),
reduced to its observable response: without both an access token and a
device id it answers `{id: mock_pay_<now>, status: "pending"}`;
otherwise it creates an intent on the gateway and answers
`{id, status: "open"}`, or a 500 error when the creation fails. -/
def createPaymentRoute (hasToken hasDevice : Bool) (now : Nat)
    (gatewayCreate : Option String) : CreateResp :=
  if !(hasToken && hasDevice) then .jsonOk (mockPayId now) "pending"
  else
    match gatewayCreate with
    | some newId => .jsonOk newId "open"
    | none => .err500

/-- Helper: every minted mock id passes the status route's
`startsWith("mock_pay")` test. -/
theorem isMockId_mockPayId (now : Nat) : isMockId (mockPayId now) = true := by
  simp [isMockId, mockPayId, String.data_append, strStarts]

/-- C10: with missing credentials, create answers the mock id
`mock_pay_<now>` with status `pending` (no error, not `open`), and
every status poll of an id passing the mock test answers `approved`
unconditionally — cache untouched, no delete issued, independent of
every gateway response — so a mock payment resolves approved on the
first poll. -/
theorem c10_mock_flow (now : Nat) (hasToken hasDevice : Bool) (g : Option String)
    (env : StatusEnv) (c : Cache) (tok : Bool)
    (h : hasToken = false ∨ hasDevice = false) :
    createPaymentRoute hasToken hasDevice now g = .jsonOk (mockPayId now) "pending" ∧
    (paymentStatusRoute tok (mockPayId now) env c).response = .approved none ∧
    (paymentStatusRoute tok (mockPayId now) env c).cache = c ∧
    (paymentStatusRoute tok (mockPayId now) env c).intentDeleteAttempts = 0 ∧
    (paymentStatusRoute tok (mockPayId now) env c).queueDeleteIds = [] := by
  have hmock := isMockId_mockPayId now
  refine ⟨?_, ?_, ?_, ?_, ?_⟩
  · rcases h with h | h <;> subst h <;> simp [createPaymentRoute]
  all_goals simp [paymentStatusRoute, hmock]

/-- C10 witness: concrete timestamp 1700000000000, no token, arbitrary
gateway behaviour. -/
theorem c10_mock_flow_witness :
    createPaymentRoute false true 1700000000000 none
      = .jsonOk (mockPayId 1700000000000) "pending" ∧
    (paymentStatusRoute true (mockPayId 1700000000000) envC3 emptyCache).response
      = .approved none :=
  have h := c10_mock_flow 1700000000000 false true none envC3 emptyCache true (Or.inl rfl)
  ⟨h.1, h.2.1⟩

/-! ## The client card-payment flow (`PaymentPage.tsx`, `handleCardPayment`) -/

/-- `const maxAttempts = 60` of the client poll loop. -/
def maxPollAttempts : Nat := 60

/-- The inter-poll sleep `setTimeout(r, 3000)` in milliseconds. -/
def pollIntervalMs : Nat := 3000

/-- The client's approval test on one status response:
`statusData.status === "approved" || statusData.status === "FINISHED"`. -/
def isApprovedResp (s : String) : Bool := s == "approved" || s == "FINISHED"

/-- The `while (attempts < maxAttempts && !approved)` poll loop of
`handleCardPayment`: each iteration sleeps `pollIntervalMs`, fetches
the status (the response of attempt `n` is `statuses n`), updates
`approved`, and increments `attempts`.  `fuel` bounds the remaining
iterations; the entry point supplies enough fuel for the whole budget.
Returns the number of status requests performed and the final
`approved` flag. -/
def cardPollLoop (statuses : Nat → String) : Nat → Nat → Bool → Nat × Bool
  | 0, attempts, approved => (attempts, approved)
  | fuel + 1, attempts, approved =>
    if attempts < maxPollAttempts && !approved then
      cardPollLoop statuses fuel (attempts + 1)
        (approved || isApprovedResp (statuses attempts))
    else (attempts, approved)

/-- The poll loop as entered by `handleCardPayment`: `attempts = 0`,
`approved = false`. -/
def runCardPoll (statuses : Nat → String) : Nat × Bool :=
  cardPollLoop statuses maxPollAttempts 0 false

/-- The error thrown when the poll budget is exhausted without
approval. -/
def timeoutMsg : String := "Tempo esgotado ou pagamento não identificado."

/-- The client-visible failure of `handleCardPayment` after the loop:
`none` when approved (the flow proceeds to clear the queue and save
the order), otherwise the thrown timeout message. -/
def cardPaymentErrorMsg (statuses : Nat → String) : Option String :=
  if (runCardPoll statuses).2 then none else some timeoutMsg

/-- Helper: the poll loop performs at most `fuel` further requests. -/
theorem cardPollLoop_fst_le (statuses : Nat → String) :
    ∀ fuel a ap, (cardPollLoop statuses fuel a ap).1 ≤ a + fuel := by
  intro fuel
  induction fuel with
  | zero => intro a ap; simp [cardPollLoop]
  | succ n ih =>
    intro a ap
    unfold cardPollLoop
    split
    · have := ih (a + 1) (ap || isApprovedResp (statuses a))
      omega
    · simp

/-- Helper: the loop ends only by approval or by exhausting the
attempt budget. -/
theorem cardPollLoop_stops (statuses : Nat → String) :
    ∀ fuel a ap, a + fuel = maxPollAttempts →
      (cardPollLoop statuses fuel a ap).2 = true ∨
      (cardPollLoop statuses fuel a ap).1 = maxPollAttempts := by
  intro fuel
  induction fuel with
  | zero =>
    intro a ap h
    right
    simp [cardPollLoop]
    omega
  | succ n ih =>
    intro a ap h
    unfold cardPollLoop
    split
    · exact ih (a + 1) _ (by omega)
    · rename_i hguard
      by_cases hap : ap = true
      · left; simp [hap]
      · right
        rw [Bool.not_eq_true] at hap
        subst hap
        simp at hguard
        simp
        omega

/-- Helper: when no response within the budget is approved-like, the
loop runs the full budget and ends unapproved. -/
theorem cardPollLoop_all_pending (statuses : Nat → String)
    (h : ∀ i, i < maxPollAttempts → isApprovedResp (statuses i) = false) :
    ∀ fuel a, a + fuel = maxPollAttempts →
      cardPollLoop statuses fuel a false = (maxPollAttempts, false) := by
  intro fuel
  induction fuel with
  | zero =>
    intro a ha
    simp [cardPollLoop]
    omega
  | succ n ih =>
    intro a ha
    have hlt : a < maxPollAttempts := by omega
    unfold cardPollLoop
    simp [hlt, h a hlt]
    exact ih (a + 1) (by omega)

/-- C7: the client poll loop performs at most 60 status requests, each
preceded by a 3000 ms sleep; when every response within the budget is
`pending` or `canceled` (in particular, never `approved`), the loop
runs all 60 attempts and the flow surfaces the timeout error message,
which is distinct from a cancellation outcome. -/
theorem c7_poll_budget_timeout (statuses : Nat → String)
    (hb : ∀ i, i < maxPollAttempts →
      statuses i = "pending" ∨ statuses i = "canceled") :
    maxPollAttempts = 60 ∧ pollIntervalMs = 3000 ∧
    (∀ s2 : Nat → String, (runCardPoll s2).1 ≤ 60) ∧
    (runCardPoll statuses).1 = 60 ∧
    cardPaymentErrorMsg statuses = some timeoutMsg ∧
    timeoutMsg ≠ "canceled" := by
  have hno : ∀ i, i < maxPollAttempts → isApprovedResp (statuses i) = false := by
    intro i hi
    rcases hb i hi with h | h <;> rw [h] <;> rfl
  have hrun : runCardPoll statuses = (maxPollAttempts, false) :=
    cardPollLoop_all_pending statuses hno maxPollAttempts 0 (by omega)
  refine ⟨rfl, rfl, ?_, ?_, ?_, by decide⟩
  · intro s2
    have := cardPollLoop_fst_le s2 maxPollAttempts 0 false
    simpa [runCardPoll, maxPollAttempts] using this
  · rw [hrun]
    rfl
  · rw [cardPaymentErrorMsg, hrun]
    rfl

/-- The all-pending response stream. -/
def pendingAll : Nat → String := fun _ => "pending"

/-- C7 witness: with every response `pending`, the loop performs
exactly 60 polls and the timeout error is surfaced. -/
theorem c7_poll_budget_timeout_witness :
    (runCardPoll pendingAll).1 = 60 ∧
    cardPaymentErrorMsg pendingAll = some timeoutMsg :=
  have h := c7_poll_budget_timeout pendingAll (fun _ _ => Or.inl rfl)
  ⟨h.2.2.2.1, h.2.2.2.2.1⟩

/-- The HTTP calls `handleCardPayment` can issue, by endpoint.
`cancelCall` stands for `DELETE /api/payment/cancel/...`, which the
backend exposes; it is in the vocabulary so that its absence from the
client flow is expressible. -/
inductive ClientCall
  | createCall
  | statusCall (i : Nat)
  | clearQueueCall
  | cancelCall
  | saveOrderCall
  deriving Repr, DecidableEq

/-- Whether a call is a status poll. -/
def isStatusCall : ClientCall → Bool
  | .statusCall _ => true
  | _ => false

/-- The sequence of calls issued by one run of `handleCardPayment`
(PaymentPage lines 103-174): the create call; on create failure the
thrown error ends the flow; otherwise one status call per poll-loop
attempt; then, only when approved, the clear-queue call and the
order save.  No code path issues `cancelCall`. -/
def handleCardPaymentCalls (createOk : Bool) (statuses : Nat → String) : List ClientCall :=
  if createOk then
    .createCall ::
      ((List.range (runCardPoll statuses).1).map .statusCall ++
        (if (runCardPoll statuses).2 then [.clearQueueCall, .saveOrderCall] else []))
  else [.createCall]

/-- C8 counterexample: the poll loop observes no cancellation flag.
With every poll answering `pending`, a cancellation requested after
poll attempt 1 would — per the claim — allow at most 2 status calls
and exactly one delete of the intent; the flow instead performs all 60
status calls and issues zero cancel deletes. -/
theorem c8_no_cancellation_flag :
    (handleCardPaymentCalls true pendingAll).countP isStatusCall = 60 ∧
    ¬ ((handleCardPaymentCalls true pendingAll).countP isStatusCall ≤ 2) ∧
    (handleCardPaymentCalls true pendingAll).countP (fun k => k == .cancelCall) = 0 ∧
    ¬ ((handleCardPaymentCalls true pendingAll).countP (fun k => k == .cancelCall) = 1) := by
  refine ⟨by decide, by decide, by decide, by decide⟩

/-- C8 (amended): the client flow has no cancellation path: it never
issues a cancel delete, its poll loop stops only on an approved-like
response or on exhausting the 60-attempt budget, and every status call
it issues belongs to the budget (index below 60). -/
theorem c8_amended_no_cancel_path (createOk : Bool) (statuses : Nat → String) :
    (handleCardPaymentCalls createOk statuses).countP (fun k => k == .cancelCall) = 0 ∧
    ((runCardPoll statuses).2 = true ∨ (runCardPoll statuses).1 = maxPollAttempts) ∧
    (∀ i, ClientCall.statusCall i ∈ handleCardPaymentCalls createOk statuses →
      i < maxPollAttempts) := by
  refine ⟨?_, cardPollLoop_stops statuses maxPollAttempts 0 false (by omega), ?_⟩
  · have hnc : ClientCall.cancelCall ∉ handleCardPaymentCalls createOk statuses := by
      rcases createOk with _ | _ <;>
        rcases hr : (runCardPoll statuses).2 with _ | _ <;>
          simp [handleCardPaymentCalls, hr]
    rw [List.countP_eq_zero]
    intro a ha h
    rw [beq_iff_eq] at h
    subst h
    exact hnc ha
  · intro i hi
    have hle := cardPollLoop_fst_le statuses maxPollAttempts 0 false
    rcases createOk with _ | _ <;>
      rcases hr : (runCardPoll statuses).2 with _ | _ <;>
        simp [handleCardPaymentCalls, hr] at hi
    all_goals simp only [runCardPoll] at hi
    all_goals omega

/-- C8 (amended) witness: with the create succeeding and every poll
`pending`, no cancel delete is issued. -/
theorem c8_amended_no_cancel_path_witness :
    (handleCardPaymentCalls true pendingAll).countP (fun k => k == ClientCall.cancelCall)
      = 0 :=
  (c8_amended_no_cancel_path true pendingAll).1

end MachinePay
